import Mathlib

/-!
Shallow embedding of the session/matching coordinator in
`src/backend/server.js` (a socket.io face-verification server), together
with proofs about its handlers.

Numeric vectors (face descriptors) are embedded as `List ℚ`; the result of
`Math.sqrt` lives in `ℝ`.  JavaScript `Date.now()` timestamps are `ℤ`.
A JS `Map` is embedded as an association list with unique keys maintained
by `mapSet`/`mapDelete`.
-/

/-- Error raised by `euclideanDistance` when the two arrays differ in
length (the JS code throws: arrays must have the same length). -/
inductive DistanceError where
  | dimensionMismatch
deriving DecidableEq, Repr

/-- The loop body of `euclideanDistance`:
`for (i = 0; i < arr1.length; i++) sum += Math.pow(arr1[i] - arr2[i], 2)`. -/
def sumSqDiff (a b : List ℚ) : ℚ :=
  ((List.range a.length).map (fun i => (a.getD i 0 - b.getD i 0) ^ 2)).sum

/-- The part of `euclideanDistance` before the final `Math.sqrt`: the length guard and
the accumulation loop. -/
def euclideanDistanceSq (a b : List ℚ) : Except DistanceError ℚ :=
  if a.length ≠ b.length then Except.error DistanceError.dimensionMismatch
  else Except.ok (sumSqDiff a b)

/-- Embeds `function euclideanDistance(arr1, arr2)` from `server.js`:
guard on equal length, sum the squared componentwise differences, and
return `Math.sqrt(sum)`. -/
noncomputable def euclideanDistance (a b : List ℚ) : Except DistanceError ℝ :=
  (euclideanDistanceSq a b).map (fun s => Real.sqrt (s : ℝ))

/-- Embeds `const threshold = 0.6` from the upload-participant handler. -/
def threshold : ℚ := 0.6

/-- Embeds `const matched = distance < threshold` (a JS boolean). -/
noncomputable def matchedBool (d : ℝ) : Bool :=
  @decide (d < ((threshold : ℚ) : ℝ)) (Classical.propDecidable _)

/-- One element of `session.participants` as stored by the
upload-participant handler. -/
structure Participant where
  socketId : String
  name : String
  image : String
  faceDescriptor : List ℚ
  matched : Bool
  matchDistance : ℝ
  timestamp : ℤ

/-- One value of the `sessions` map, as created by `create-session`. -/
structure Session where
  id : String
  adminId : String
  adminName : String
  referenceImage : Option String
  referenceFaceDescriptor : Option (List ℚ)
  participants : List Participant
  maxParticipants : ℕ
  durationMinutes : ℤ
  createdAt : ℤ

/-- JS truthiness test on a nullable string (`!session.referenceImage`):
`null` and the empty string are falsy. -/
def falsyStr : Option String → Bool
  | none => true
  | some s => s = ""

/-- Embeds the display-name default `name OR Anonymous` (JS `||`). -/
def nameOr : Option String → String
  | none => "Anonymous"
  | some n => if n = "" then "Anonymous" else n

section Lemmas

lemma sumSqDiff_nil_nil : sumSqDiff [] [] = 0 := rfl

lemma sumSqDiff_cons (x y : ℚ) (a b : List ℚ) :
    sumSqDiff (x :: a) (y :: b) = (x - y) ^ 2 + sumSqDiff a b := by
  unfold sumSqDiff
  rw [List.length_cons, List.range_succ_eq_map]
  simp only [List.map_cons, List.sum_cons, List.map_map]
  have h : ((fun i => ((x :: a).getD i 0 - (y :: b).getD i 0) ^ 2) ∘ Nat.succ)
      = (fun i => (a.getD i 0 - b.getD i 0) ^ 2) := by
    funext i
    simp [Function.comp, List.getD]
  rw [h]
  simp

/-- On equal-length lists the accumulation loop computes the sum of
squared componentwise differences. -/
lemma sumSqDiff_eq_zipWith (a b : List ℚ) (h : a.length = b.length) :
    sumSqDiff a b = (List.zipWith (fun x y => (x - y) ^ 2) a b).sum := by
  induction a generalizing b with
  | nil =>
    cases b with
    | nil => simp [sumSqDiff_nil_nil]
    | cons y b => simp at h
  | cons x a ih =>
    cases b with
    | nil => simp at h
    | cons y b =>
      simp only [List.length_cons, Nat.succ.injEq] at h
      rw [sumSqDiff_cons, List.zipWith_cons_cons, List.sum_cons, ih b h]

lemma sumSqDiff_nonneg (a b : List ℚ) : 0 ≤ sumSqDiff a b := by
  unfold sumSqDiff
  apply List.sum_nonneg
  intro x hx
  rcases List.mem_map.mp hx with ⟨i, _, rfl⟩
  positivity

/-- The stored `matched` boolean, expressed on the pre-sqrt sum:
`Math.sqrt(sum) < 0.6` iff `sum < 0.36`. -/
lemma matchedBool_sqrt (q : ℚ) :
    matchedBool (Real.sqrt (q : ℝ)) = decide (q < 9 / 25) := by
  unfold matchedBool
  rw [decide_eq_decide]
  rw [Real.sqrt_lt' (by norm_num [threshold])]
  constructor
  · intro h
    have : ((q : ℝ)) < ((9 / 25 : ℚ) : ℝ) := by
      convert h using 2
      norm_num [threshold]
    exact_mod_cast this
  · intro h
    have : ((q : ℝ)) < ((9 / 25 : ℚ) : ℝ) := by exact_mod_cast h
    calc (q : ℝ) < ((9 / 25 : ℚ) : ℝ) := this
      _ = ((threshold : ℚ) : ℝ) ^ 2 := by norm_num [threshold]

lemma matchedBool_eq_true_iff (d : ℝ) :
    matchedBool d = true ↔ d < ((threshold : ℚ) : ℝ) := by
  unfold matchedBool
  exact decide_eq_true_iff

end Lemmas

/-- C6: on vectors of equal length `euclideanDistance` returns the
Euclidean distance (the square root of the summed squared componentwise
differences), a non-negative scalar; on vectors of differing lengths it
fails with `DimensionMismatch` instead of returning a value. -/
theorem euclideanDistance_spec (a b : List ℚ) :
    (a.length = b.length →
      euclideanDistance a b =
        Except.ok (Real.sqrt (((List.zipWith (fun x y => (x - y) ^ 2) a b).sum : ℚ) : ℝ))
      ∧ ∃ d : ℝ, euclideanDistance a b = Except.ok d ∧ 0 ≤ d)
    ∧ (a.length ≠ b.length →
      euclideanDistance a b = Except.error DistanceError.dimensionMismatch) := by
  constructor
  · intro h
    have hd : euclideanDistance a b =
        Except.ok (Real.sqrt (((List.zipWith (fun x y => (x - y) ^ 2) a b).sum : ℚ) : ℝ)) := by
      unfold euclideanDistance euclideanDistanceSq
      rw [if_neg (by simp [h])]
      simp [Except.map, sumSqDiff_eq_zipWith a b h]
    exact ⟨hd, _, hd, Real.sqrt_nonneg _⟩
  · intro h
    unfold euclideanDistance euclideanDistanceSq
    rw [if_pos h]
    rfl

/-- Witness for `euclideanDistance_spec` at concrete inputs: equal-length
vectors `[1, 2]`, `[4, 6]` give `√25`, and mismatched lengths fail. -/
theorem euclideanDistance_spec_witness :
    euclideanDistance [(1 : ℚ), 2] [4, 6] = Except.ok (Real.sqrt ((25 : ℚ) : ℝ))
    ∧ euclideanDistance [(1 : ℚ)] [1, 2] = Except.error DistanceError.dimensionMismatch := by
  constructor
  · have h := (euclideanDistance_spec [(1 : ℚ), 2] [4, 6]).1 (by decide)
    have h1 := h.1
    norm_num [List.zipWith] at h1 ⊢
    exact h1
  · exact (euclideanDistance_spec [(1 : ℚ)] [1, 2]).2 (by decide)

/-! ## The `sessions` map, `create-session`, and the expiry sweep -/

/-- The in-memory `sessions` JS `Map`, as an association list whose keys
are kept unique by the operations below. -/
abbrev SessionMap := List (String × Session)

/-- Embeds `sessions.get(sessionId)`. -/
def mapGet (m : SessionMap) (k : String) : Option Session :=
  (m.find? (fun kv => kv.1 = k)).map (fun kv => kv.2)

/-- Embeds `sessions.set(sessionId, v)`: replaces the value under an existing
key, otherwise appends a fresh entry. -/
def mapSet (m : SessionMap) (k : String) (v : Session) : SessionMap :=
  if m.any (fun kv => kv.1 = k) then
    m.map (fun kv => if kv.1 = k then (k, v) else kv)
  else m ++ [(k, v)]

/-- Embeds `sessions.delete(sessionId)`. -/
def mapDelete (m : SessionMap) (k : String) : SessionMap :=
  m.filter (fun kv => kv.1 ≠ k)

/-- Embeds `uuidv4().substring(0, 8).toUpperCase()` applied to a freshly drawn
UUID string `u`. -/
def genSessionId (u : String) : String :=
  (u.take 8).toUpper

/-- The `create-session` handler: derives the id from a fresh UUID `u`,
stores a new session (duration defaulting to 30 when absent), and returns
the updated map together with the id sent back to the caller.  No
collision check is made before `sessions.set`. -/
def createSession (u : String) (sock : String) (durationMinutes : Option ℤ)
    (now : ℤ) (m : SessionMap) : SessionMap × String :=
  let sessionId := genSessionId u
  (mapSet m sessionId
    { id := sessionId
      adminId := sock
      adminName := ""
      referenceImage := none
      referenceFaceDescriptor := none
      participants := []
      maxParticipants := 10
      durationMinutes := durationMinutes.getD 30
      createdAt := now },
   sessionId)

/-- Embeds `const sessionDuration = (session.durationMinutes || 30) * 60 * 1000`
(JS `||` treats the number 0 as falsy). -/
def sessionDurationMs (s : Session) : ℤ :=
  (if s.durationMinutes = 0 then (30 : ℤ) else s.durationMinutes) * 60 * 1000

/-- Embeds `now - session.createdAt > sessionDuration`, the deletion test of the
cleanup interval. -/
def isExpired (now : ℤ) (s : Session) : Bool :=
  decide (now - s.createdAt > sessionDurationMs s)

/-- One run of the `setInterval` cleanup body at time `now`: every
session whose age exceeds its configured duration is deleted. -/
def sweep (now : ℤ) (m : SessionMap) : SessionMap :=
  m.filter (fun kv => ! isExpired now kv.2)

section MapLemmas

lemma mapGet_mapSet_self (m : SessionMap) (k : String) (v : Session) :
    mapGet (mapSet m k v) k = some v := by
  unfold mapGet mapSet
  by_cases h : m.any (fun kv => kv.1 = k)
  · rw [if_pos h]
    induction m with
    | nil => simp at h
    | cons kv m ih =>
      by_cases hk : kv.1 = k
      · simp [List.find?, hk]
      · simp only [List.any_cons, Bool.or_eq_true, decide_eq_true_eq] at h
        rcases h with h | h
        · exact absurd h hk
        · simpa [List.find?, hk] using ih h
  · rw [if_neg h]
    induction m with
    | nil => simp [List.find?]
    | cons kv m ih =>
      simp only [List.any_cons, Bool.or_eq_true, decide_eq_true_eq, not_or] at h
      simpa [List.find?, h.1] using ih (by simpa using h.2)

/-- An entry whose session the sweep predicate keeps is still found
afterwards (entries removed in front of it do not affect lookup of its
key). -/
lemma mapGet_sweep_of_kept (m : SessionMap) (k : String) (v : Session)
    (now : ℤ) (h : mapGet m k = some v) (hkeep : isExpired now v = false) :
    mapGet (sweep now m) k = some v := by
  induction m with
  | nil => simp [mapGet] at h
  | cons kv m ih =>
    by_cases hk : kv.1 = k
    · have hv : kv.2 = v := by
        simpa [mapGet, List.find?, hk] using h
      subst hv
      simp [sweep, mapGet, List.filter, hkeep, List.find?, hk]
    · have h2 : mapGet m k = some v := by
        simpa [mapGet, List.find?, hk] using h
      have ih2 := ih h2
      unfold sweep at ih2 ⊢
      cases hkv : (! isExpired now kv.2) with
      | true => simpa [List.filter, hkv, mapGet, List.find?, hk] using ih2
      | false => simpa [List.filter, hkv] using ih2

lemma mapGet_eq_none_of_not_mem (m : SessionMap) (k : String)
    (h : k ∉ m.map Prod.fst) : mapGet m k = none := by
  induction m with
  | nil => rfl
  | cons kv m ih =>
    simp only [List.map_cons, List.mem_cons, not_or] at h
    have hk : kv.1 ≠ k := fun hc => h.1 hc.symm
    simpa [mapGet, List.find?, hk] using ih h.2

/-- With unique keys, an entry whose session the sweep predicate deletes
is absent afterwards. -/
lemma mapGet_sweep_of_expired (m : SessionMap) (k : String) (v : Session)
    (now : ℤ) (hnd : (m.map Prod.fst).Nodup) (h : mapGet m k = some v)
    (hexp : isExpired now v = true) :
    mapGet (sweep now m) k = none := by
  induction m with
  | nil => simp [mapGet] at h
  | cons kv m ih =>
    simp only [List.map_cons, List.nodup_cons] at hnd
    by_cases hk : kv.1 = k
    · have hv : kv.2 = v := by
        simpa [mapGet, List.find?, hk] using h
      subst hv
      have hnm : k ∉ m.map Prod.fst := hk ▸ hnd.1
      have : mapGet (sweep now m) k = none := by
        apply mapGet_eq_none_of_not_mem
        intro hc
        exact hnm (by
          rcases List.mem_map.mp hc with ⟨kv2, hkv2, rfl⟩
          exact List.mem_map.mpr ⟨kv2, List.mem_of_mem_filter hkv2, rfl⟩)
      simpa [sweep, List.filter, hexp, List.find?, hk] using this
    · have h2 : mapGet m k = some v := by
        simpa [mapGet, List.find?, hk] using h
      have ih2 := ih hnd.2 h2
      unfold sweep at ih2 ⊢
      cases hkv : (! isExpired now kv.2) with
      | true => simpa [List.filter, hkv, mapGet, List.find?, hk] using ih2
      | false => simpa [List.filter, hkv] using ih2

end MapLemmas

/-! ## The `upload-reference-image` and `upload-participant-image` handlers -/

/-- Replies of the `upload-reference-image` handler. -/
inductive RefReply where
  | sessionNotFound
  | notAuthorized
  | success
deriving DecidableEq, Repr

/-- Outcome of `upload-reference-image`: the callback reply and the
post-state of the addressed session (`none` when the session did not
exist). -/
structure RefOut where
  reply : RefReply
  session : Option Session

/-- The `upload-reference-image` handler, acting on the addressed
session: missing session and non-owner caller are rejected; otherwise
both reference fields are overwritten. -/
def uploadReferenceImage (s? : Option Session) (sock : String)
    (image : String) (faceDescriptor : List ℚ) : RefOut :=
  match s? with
  | none => ⟨RefReply.sessionNotFound, none⟩
  | some s =>
    if s.adminId ≠ sock then ⟨RefReply.notAuthorized, some s⟩
    else ⟨RefReply.success,
      some { s with
        referenceImage := some image
        referenceFaceDescriptor := some faceDescriptor }⟩

/-- Replies of the `upload-participant-image` handler.  `thrown` stands
for an exception escaping the handler (a `DimensionMismatch` from
`euclideanDistance`, or a null reference descriptor), in which case no
callback fires and no state changes. -/
inductive PartReply where
  | sessionNotFound
  | referenceNotReady
  | sessionFull
  | thrown
  | success
deriving DecidableEq, Repr

/-- The `verification-result` event unicast to the uploading socket. -/
structure VerificationResult where
  matched : Bool
  distance : ℝ
  referenceImage : Option String
  participantImage : String

/-- One element of the participant list inside a `gallery-updated`
event (the projection of a matched participant). -/
structure GalleryEntry where
  name : String
  image : String
  matchDistance : ℝ
  timestamp : ℤ

/-- The `gallery-updated` event emitted to the session admin. -/
structure GalleryUpdate where
  participants : List GalleryEntry
  totalParticipants : ℕ
  matchedCount : ℕ

/-- Embeds `.map(p => ({name, image, matchDistance, timestamp}))`. -/
def projectParticipant (p : Participant) : GalleryEntry :=
  ⟨p.name, p.image, p.matchDistance, p.timestamp⟩

/-- The `gallery-updated` payload built from a session state:
matched participants projected, the total count and the matched count. -/
def galleryOf (s : Session) : GalleryUpdate :=
  ⟨(s.participants.filter (fun p => p.matched)).map projectParticipant,
   s.participants.length,
   (s.participants.filter (fun p => p.matched)).length⟩

/-- Outcome of `upload-participant-image`: the callback reply, the
post-state of the addressed session, the unicast `verification-result`
(if any) and the `gallery-updated` event to the admin (if any). -/
structure PartOut where
  reply : PartReply
  session : Option Session
  verification : Option VerificationResult
  gallery : Option GalleryUpdate

/-- The `upload-participant-image` handler, acting on the addressed
session.  Follows the source order exactly: missing session, missing
reference (JS truthiness on `referenceImage`), capacity check, distance
computation (which can throw), then push of the new participant record,
unicast of the result with the reference image disclosed only when
matched, and — only when matched — a gallery update to the admin. -/
noncomputable def uploadParticipantImage (s? : Option Session) (sock : String)
    (image : String) (faceDescriptor : List ℚ) (name? : Option String)
    (now : ℤ) : PartOut :=
  match s? with
  | none => ⟨PartReply.sessionNotFound, none, none, none⟩
  | some s =>
    if falsyStr s.referenceImage then
      ⟨PartReply.referenceNotReady, some s, none, none⟩
    else if s.participants.length ≥ s.maxParticipants then
      ⟨PartReply.sessionFull, some s, none, none⟩
    else
      match s.referenceFaceDescriptor with
      | none => ⟨PartReply.thrown, some s, none, none⟩
      | some refDescriptor =>
        match euclideanDistanceSq refDescriptor faceDescriptor with
        | Except.error _ => ⟨PartReply.thrown, some s, none, none⟩
        | Except.ok sq =>
          let distance : ℝ := Real.sqrt (sq : ℝ)
          let matched : Bool := matchedBool distance
          let participant : Participant :=
            ⟨sock, nameOr name?, image, faceDescriptor, matched, distance, now⟩
          let s2 : Session :=
            { s with participants := s.participants ++ [participant] }
          ⟨PartReply.success, some s2,
           some ⟨matched, distance,
                 if matched then s.referenceImage else none, image⟩,
           if matched then some (galleryOf s2) else none⟩

section UploadInversion

/-- Inversion of a successful `upload-participant-image`: the guards must
have passed, and the whole outcome is determined by the pre-sqrt sum of
squares `sq`. -/
lemma uploadParticipant_success_inv (s : Session) (sock image : String)
    (fd : List ℚ) (name? : Option String) (now : ℤ)
    (h : (uploadParticipantImage (some s) sock image fd name? now).reply
      = PartReply.success) :
    ∃ refD sq,
      s.referenceFaceDescriptor = some refD
      ∧ euclideanDistanceSq refD fd = Except.ok sq
      ∧ falsyStr s.referenceImage = false
      ∧ s.participants.length < s.maxParticipants
      ∧ uploadParticipantImage (some s) sock image fd name? now =
        ⟨PartReply.success,
         some { s with participants := s.participants ++
            [⟨sock, nameOr name?, image, fd, matchedBool (Real.sqrt (sq : ℝ)),
              Real.sqrt (sq : ℝ), now⟩] },
         some ⟨matchedBool (Real.sqrt (sq : ℝ)), Real.sqrt (sq : ℝ),
               if matchedBool (Real.sqrt (sq : ℝ)) then s.referenceImage else none,
               image⟩,
         if matchedBool (Real.sqrt (sq : ℝ)) then
           some (galleryOf { s with participants := s.participants ++
              [⟨sock, nameOr name?, image, fd, matchedBool (Real.sqrt (sq : ℝ)),
                Real.sqrt (sq : ℝ), now⟩] })
         else none⟩ := by
  by_cases h1 : falsyStr s.referenceImage
  · simp [uploadParticipantImage, h1] at h
  · by_cases h2 : s.participants.length ≥ s.maxParticipants
    · simp [uploadParticipantImage, h1, h2] at h
    · cases hrd : s.referenceFaceDescriptor with
      | none => simp [uploadParticipantImage, h1, h2, hrd] at h
      | some refD =>
        cases hsq : euclideanDistanceSq refD fd with
        | error e => simp [uploadParticipantImage, h1, h2, hrd, hsq] at h
        | ok sq =>
          refine ⟨refD, sq, hrd ▸ rfl, hsq, by simpa using h1, by omega, ?_⟩
          simp [uploadParticipantImage, h1, h2, hrd, hsq]

end UploadInversion

/-- C1: whenever `upload-participant-image` accepts an upload, the
unicast `verification-result` carries the reference image of the session iff
`matched` is true, and `matched` is true iff the computed distance is
below the threshold; when the upload is unmatched, no gallery update is
emitted for it, the record stored for it has `matched = false`, and no
session state ever lists such a record among the matched participants a
`gallery-updated` event is built from. -/
theorem upload_disclosure_asymmetry (s : Session) (sock image : String)
    (fd : List ℚ) (name? : Option String) (now : ℤ) (s2 : Session)
    (v : VerificationResult) (g : Option GalleryUpdate)
    (h : uploadParticipantImage (some s) sock image fd name? now =
      ⟨PartReply.success, some s2, some v, g⟩) :
    (v.matched = true ↔ v.distance < ((threshold : ℚ) : ℝ))
    ∧ (∃ r, s.referenceImage = some r
        ∧ (v.matched = true → v.referenceImage = some r)
        ∧ (v.matched = false → v.referenceImage = none))
    ∧ (∀ s3 : Session, (galleryOf s3).participants =
        (s3.participants.filter (fun q => q.matched)).map projectParticipant)
    ∧ (v.matched = false →
        g = none
        ∧ ∃ p : Participant,
            s2.participants = s.participants ++ [p]
            ∧ p.matched = false
            ∧ ∀ s3 : Session,
                p ∉ s3.participants.filter (fun q => q.matched)) := by
  have hr : (uploadParticipantImage (some s) sock image fd name? now).reply
      = PartReply.success := by rw [h]
  obtain ⟨refD, sq, _, _, hfalsy, _, heq⟩ :=
    uploadParticipant_success_inv s sock image fd name? now hr
  rw [h] at heq
  obtain ⟨hs2, hv, hg⟩ : some s2 = some _ ∧ some v = some _ ∧ g = _ := by
    have h1 := congrArg PartOut.session heq
    have h2 := congrArg PartOut.verification heq
    have h3 := congrArg PartOut.gallery heq
    exact ⟨h1, h2, h3⟩
  rw [Option.some_inj] at hs2 hv
  obtain ⟨r, href⟩ : ∃ r, s.referenceImage = some r := by
    cases hri : s.referenceImage with
    | none => rw [hri] at hfalsy; simp [falsyStr] at hfalsy
    | some r => exact ⟨r, rfl⟩
  refine ⟨?_, ⟨r, href, ?_, ?_⟩, fun s3 => rfl, ?_⟩
  · rw [hv]
    simpa using matchedBool_eq_true_iff (Real.sqrt (sq : ℝ))
  · intro hm
    rw [hv] at hm ⊢
    simp only at hm
    simp [hm, href]
  · intro hm
    rw [hv] at hm ⊢
    simp only at hm
    simp [hm]
  · intro hm
    rw [hv] at hm
    simp only at hm
    constructor
    · rw [hg]
      simp [hm]
    · refine ⟨_, by rw [hs2], by simpa using hm, ?_⟩
      intro s3 hmem
      have := List.of_mem_filter hmem
      simp [hm] at this

section DemoRun

/-- Reference descriptor used by the concrete runs below. -/
def demoRef : List ℚ := [0, 0]

/-- A session right after its owner uploaded the reference. -/
def demoSession : Session :=
  ⟨"SESS0001", "admin", "", some "refimg", some demoRef, [], 10, 30, 0⟩

/-- The record the handler pushes for the demo upload (distance
`√0 = 0 < 0.6`, so it is matched). -/
def demoNewRec : Participant :=
  ⟨"p1", "Anonymous", "pimg", [0, 0], true, (0 : ℝ), 5⟩

/-- The demo session after the upload. -/
def demoSession2 : Session :=
  { demoSession with participants := [demoNewRec] }

/-- The unicast result of the demo upload. -/
def demoV : VerificationResult :=
  ⟨true, (0 : ℝ), some "refimg", "pimg"⟩

/-- The gallery update emitted by the demo upload. -/
def demoG : GalleryUpdate :=
  ⟨[projectParticipant demoNewRec], 1, 1⟩

lemma demo_matchedBool : matchedBool (0 : ℝ) = true :=
  (matchedBool_eq_true_iff 0).mpr (by norm_num [threshold])

/-- Concrete evaluation of a matched upload against `demoSession`. -/
lemma demoRun_eq :
    uploadParticipantImage (some demoSession) "p1" "pimg" [0, 0] none 5 =
      ⟨PartReply.success, some demoSession2, some demoV, some demoG⟩ := by
  have hsum : sumSqDiff [(0 : ℚ), 0] [0, 0] = 0 := by
    rw [sumSqDiff_eq_zipWith _ _ (by decide)]
    norm_num
  have hsq : euclideanDistanceSq [(0 : ℚ), 0] [0, 0] = Except.ok 0 := by
    unfold euclideanDistanceSq
    rw [if_neg (by decide), hsum]
  simp [uploadParticipantImage, demoSession, falsyStr, hsq, demo_matchedBool,
    demoSession2, demoNewRec, demoV, demoG, galleryOf, projectParticipant,
    nameOr, demoRef]

end DemoRun

/-- Witness for `upload_disclosure_asymmetry`: a concrete matched upload
against `demoSession`. -/
theorem upload_disclosure_asymmetry_witness :
    (demoV.matched = true ↔ demoV.distance < ((threshold : ℚ) : ℝ))
    ∧ (∃ r, demoSession.referenceImage = some r
        ∧ (demoV.matched = true → demoV.referenceImage = some r)
        ∧ (demoV.matched = false → demoV.referenceImage = none))
    ∧ (∀ s3 : Session, (galleryOf s3).participants =
        (s3.participants.filter (fun q => q.matched)).map projectParticipant)
    ∧ (demoV.matched = false →
        (some demoG : Option GalleryUpdate) = none
        ∧ ∃ p : Participant,
            demoSession2.participants = demoSession.participants ++ [p]
            ∧ p.matched = false
            ∧ ∀ s3 : Session,
                p ∉ s3.participants.filter (fun q => q.matched)) :=
  upload_disclosure_asymmetry demoSession "p1" "pimg" [0, 0] none 5
    demoSession2 demoV (some demoG) demoRun_eq

/-- C10: every `gallery-updated` event emitted by the participant-upload
handler lists exactly the matched participants of the post-upload session
state (projected to name, image, distance, timestamp); its
`matchedCount` equals the length of that list, `totalParticipants`
equals the length of the full participants collection at emission time,
and `matchedCount ≤ totalParticipants`. -/
theorem gallery_update_consistency (s : Session) (sock image : String)
    (fd : List ℚ) (name? : Option String) (now : ℤ) (s2 : Session)
    (v : Option VerificationResult) (g : GalleryUpdate)
    (h : uploadParticipantImage (some s) sock image fd name? now =
      ⟨PartReply.success, some s2, v, some g⟩) :
    g.participants =
      (s2.participants.filter (fun p => p.matched)).map projectParticipant
    ∧ g.matchedCount = g.participants.length
    ∧ g.totalParticipants = s2.participants.length
    ∧ g.matchedCount ≤ g.totalParticipants := by
  have hr : (uploadParticipantImage (some s) sock image fd name? now).reply
      = PartReply.success := by rw [h]
  obtain ⟨refD, sq, _, _, _, _, heq⟩ :=
    uploadParticipant_success_inv s sock image fd name? now hr
  rw [h] at heq
  have hs2 := congrArg PartOut.session heq
  have hg := congrArg PartOut.gallery heq
  simp only at hs2 hg
  rw [Option.some_inj] at hs2
  by_cases hm : matchedBool (Real.sqrt ((sq : ℚ) : ℝ)) = true
  · rw [if_pos hm, Option.some_inj] at hg
    subst hs2
    rw [hg]
    refine ⟨rfl, ?_, rfl, ?_⟩
    · simp only [galleryOf, List.length_map]
    · simp only [galleryOf]
      exact List.length_filter_le _ _
  · rw [if_neg hm] at hg
    exact absurd hg (by simp)

/-- Witness for `gallery_update_consistency`: the gallery of the concrete
matched demo upload. -/
theorem gallery_update_consistency_witness :
    demoG.participants =
      (demoSession2.participants.filter (fun p => p.matched)).map projectParticipant
    ∧ demoG.matchedCount = demoG.participants.length
    ∧ demoG.totalParticipants = demoSession2.participants.length
    ∧ demoG.matchedCount ≤ demoG.totalParticipants :=
  gallery_update_consistency demoSession "p1" "pimg" [0, 0] none 5
    demoSession2 (some demoV) demoG demoRun_eq

section DupRun

/-- A participant record already stored for connection `"A"`. -/
def dupRec : Participant := ⟨"A", "Ann", "i1", [0, 0], true, (0 : ℝ), 1⟩

/-- A session in which connection `"A"` already has a record. -/
def dupSession : Session :=
  ⟨"SESS0002", "admin", "", some "refimg", some demoRef, [dupRec], 10, 30, 0⟩

/-- The record pushed by a second upload from connection `"A"`. -/
def dupRec2 : Participant := ⟨"A", "Anonymous", "i2", [0, 0], true, (0 : ℝ), 2⟩

/-- The state of `dupSession` after the second upload from `"A"`. -/
def dupSession2 : Session :=
  { dupSession with participants := [dupRec, dupRec2] }

/-- The unicast result of the second upload from `"A"`. -/
def dupV : VerificationResult := ⟨true, (0 : ℝ), some "refimg", "i2"⟩

/-- The gallery update emitted by the second upload from `"A"`. -/
def dupG : GalleryUpdate :=
  ⟨[projectParticipant dupRec, projectParticipant dupRec2], 2, 2⟩

/-- Concrete evaluation of a second upload from a connection that already
has a participant record. -/
lemma dupRun_eq :
    uploadParticipantImage (some dupSession) "A" "i2" [0, 0] none 2 =
      ⟨PartReply.success, some dupSession2, some dupV, some dupG⟩ := by
  have hsum : sumSqDiff [(0 : ℚ), 0] [0, 0] = 0 := by
    rw [sumSqDiff_eq_zipWith _ _ (by decide)]
    norm_num
  have hsq : euclideanDistanceSq [(0 : ℚ), 0] [0, 0] = Except.ok 0 := by
    unfold euclideanDistanceSq
    rw [if_neg (by decide), hsum]
  simp [uploadParticipantImage, dupSession, falsyStr, hsq, demo_matchedBool,
    dupSession2, dupRec, dupRec2, dupV, dupG, galleryOf, projectParticipant,
    nameOr, demoRef]

end DupRun

/-- C2 counterexample: a second successful upload from connection `"A"`,
which already has a Participant record in the session, is accepted and
leaves TWO records with `socketId = "A"` in the participants collection —
the handler appends instead of replacing, so `connectionId` is not
unique within a session. -/
theorem participant_connection_not_unique :
    (uploadParticipantImage (some dupSession) "A" "i2" [0, 0] none 2).reply
      = PartReply.success
    ∧ ((uploadParticipantImage (some dupSession) "A" "i2" [0, 0] none 2).session.map
        (fun s => s.participants.map (fun p => p.socketId))) = some ["A", "A"] := by
  rw [dupRun_eq]
  constructor
  · rfl
  · simp [dupSession2, dupSession, dupRec, dupRec2]

/-- C2 amended: a second successful `upload-participant-image` from the
same connection does not replace the existing record of that connection; every
successful upload appends one new record (with the connection
id of the uploader) at the end of the participants collection, so two records in one
session can share a `connectionId`. -/
theorem participant_upload_appends (s : Session) (sock image : String)
    (fd : List ℚ) (name? : Option String) (now : ℤ) (s2 : Session)
    (v : Option VerificationResult) (g : Option GalleryUpdate)
    (h : uploadParticipantImage (some s) sock image fd name? now =
      ⟨PartReply.success, some s2, v, g⟩) :
    ∃ p : Participant, p.socketId = sock
      ∧ s2.participants = s.participants ++ [p] := by
  have hr : (uploadParticipantImage (some s) sock image fd name? now).reply
      = PartReply.success := by rw [h]
  obtain ⟨refD, sq, _, _, _, _, heq⟩ :=
    uploadParticipant_success_inv s sock image fd name? now hr
  rw [h] at heq
  have hs2 := congrArg PartOut.session heq
  simp only at hs2
  rw [Option.some_inj] at hs2
  exact ⟨_, rfl, by rw [hs2]⟩

/-- Witness for `participant_upload_appends`: the concrete second upload
from `"A"` appends its record after the existing one. -/
theorem participant_upload_appends_witness :
    ∃ p : Participant, p.socketId = "A"
      ∧ dupSession2.participants = dupSession.participants ++ [p] :=
  participant_upload_appends dupSession "A" "i2" [0, 0] none 2
    dupSession2 (some dupV) (some dupG) dupRun_eq

section FullSession

/-- A stored participant record for the capacity scenario. -/
def fullP (n : String) : Participant := ⟨n, n, n, [0, 0], true, (0 : ℝ), 0⟩

/-- A session at capacity (10 participants, among them connection `"A"`). -/
def fullSession : Session :=
  ⟨"SESS0003", "admin", "", some "refimg", some demoRef,
   (["A", "B", "C", "D", "E", "F", "G", "H", "I", "J"]).map fullP, 10, 30, 0⟩

end FullSession

/-- C3 counterexample: in a full session, an upload from connection `"A"`
— which already has a Participant record there — is still rejected with
`SessionFull`; being an existing participant does not exempt the caller
from the capacity check. -/
theorem sessionFull_rejects_existing_participant :
    (∃ p ∈ fullSession.participants, p.socketId = "A")
    ∧ fullSession.participants.length = fullSession.maxParticipants
    ∧ (uploadParticipantImage (some fullSession) "A" "i" [0, 0] none 3).reply
        = PartReply.sessionFull := by
  refine ⟨⟨fullP "A", by simp [fullSession], rfl⟩, by simp [fullSession], ?_⟩
  simp [uploadParticipantImage, fullSession, falsyStr]

/-- C3 amended: `upload-participant-image` fails with `SessionFull`
whenever the reference is present and the participants collection is at
or above capacity, regardless of whether the caller already has a
Participant record; the session state is left unchanged. -/
theorem sessionFull_at_capacity (s : Session) (sock image : String)
    (fd : List ℚ) (name? : Option String) (now : ℤ)
    (h1 : falsyStr s.referenceImage = false)
    (h2 : s.participants.length ≥ s.maxParticipants) :
    uploadParticipantImage (some s) sock image fd name? now =
      ⟨PartReply.sessionFull, some s, none, none⟩ := by
  simp [uploadParticipantImage, h1, h2]

/-- Witness for `sessionFull_at_capacity`: the full session rejects the
upload from its existing participant `"A"`. -/
theorem sessionFull_at_capacity_witness :
    uploadParticipantImage (some fullSession) "A" "i" [0, 0] none 3 =
      ⟨PartReply.sessionFull, some fullSession, none, none⟩ :=
  sessionFull_at_capacity fullSession "A" "i" [0, 0] none 3
    (by simp [fullSession, falsyStr]) (by simp [fullSession])

/-- A session whose owner has not uploaded a reference yet. -/
def noRefSession : Session :=
  ⟨"SESS0004", "admin", "", none, none, [], 10, 30, 0⟩

/-- C4: while no reference has been uploaded (`referenceImage` is null),
`upload-participant-image` from any non-owner connection fails with
`ReferenceNotReady`, no Participant record is added, and the session is
unchanged. -/
theorem referenceNotReady_before_reference (s : Session) (sock image : String)
    (fd : List ℚ) (name? : Option String) (now : ℤ)
    (h1 : s.referenceImage = none) (_h2 : sock ≠ s.adminId) :
    uploadParticipantImage (some s) sock image fd name? now =
      ⟨PartReply.referenceNotReady, some s, none, none⟩ := by
  simp [uploadParticipantImage, falsyStr, h1]

/-- Witness for `referenceNotReady_before_reference`: a non-owner upload
into the fresh `noRefSession`. -/
theorem referenceNotReady_before_reference_witness :
    uploadParticipantImage (some noRefSession) "p9" "i" [0, 0] none 3 =
      ⟨PartReply.referenceNotReady, some noRefSession, none, none⟩ :=
  referenceNotReady_before_reference noRefSession "p9" "i" [0, 0] none 3
    (by simp [noRefSession]) (by simp [noRefSession])

/-- C5: for every existing session, `upload-reference-image` from a
connection other than the owner fails with `NotAuthorized` and leaves the
session (its reference fields included) unchanged, whatever the rest of
the state; from the owner it succeeds and overwrites both reference
fields, replacing any prior reference. -/
theorem uploadReference_authorization (s : Session) (sock image : String)
    (fd : List ℚ) :
    (sock ≠ s.adminId →
      uploadReferenceImage (some s) sock image fd = ⟨RefReply.notAuthorized, some s⟩)
    ∧ (sock = s.adminId →
      uploadReferenceImage (some s) sock image fd =
        ⟨RefReply.success,
         some { s with referenceImage := some image,
                       referenceFaceDescriptor := some fd }⟩) := by
  constructor
  · intro h
    simp [uploadReferenceImage, Ne.symm h]
  · intro h
    simp [uploadReferenceImage, h]

/-- Witness for `uploadReference_authorization`: against `demoSession`
(owner `"admin"`, reference already set), the caller `"evil"` is rejected
with the state intact, and a re-upload by `"admin"` replaces the prior
reference. -/
theorem uploadReference_authorization_witness :
    uploadReferenceImage (some demoSession) "evil" "x" [1] =
      ⟨RefReply.notAuthorized, some demoSession⟩
    ∧ uploadReferenceImage (some demoSession) "admin" "newimg" [1, 2] =
      ⟨RefReply.success,
       some { demoSession with referenceImage := some "newimg",
                               referenceFaceDescriptor := some [1, 2] }⟩ :=
  ⟨(uploadReference_authorization demoSession "evil" "x" [1]).1
      (by simp [demoSession]),
   (uploadReference_authorization demoSession "admin" "newimg" [1, 2]).2
      (by simp [demoSession])⟩

section CollisionRun

/-- A live session stored under id `"ABCD1234"`, owned by `"X"`. -/
def oldSession : Session :=
  ⟨"ABCD1234", "X", "", none, none, [], 10, 30, 0⟩

/-- A map holding `oldSession`. -/
def collisionMap : SessionMap := [("ABCD1234", oldSession)]

end CollisionRun

/-- C7 counterexample: `create-session` derives the id from a fresh UUID
without checking it against existing live sessions; when the derived id
collides with a live session (`"abcd1234..."` uppercased is
`"ABCD1234"`), `sessions.set` silently replaces the old session — here
the owner of the stored session changes from `"X"` to `"Y"`, so the old
session state is overwritten rather than regenerated. -/
theorem createSession_overwrites_on_collision :
    (mapGet collisionMap "ABCD1234").map (fun s => s.adminId) = some "X"
    ∧ (createSession "abcd1234-e89b-42d3" "Y" (some 30) 100 collisionMap).2
        = "ABCD1234"
    ∧ (mapGet (createSession "abcd1234-e89b-42d3" "Y" (some 30) 100 collisionMap).1
        "ABCD1234").map (fun s => s.adminId) = some "Y" := by
  have hid : genSessionId "abcd1234-e89b-42d3" = "ABCD1234" := by
    rw [genSessionId, String.toUpper, String.map_eq]
    decide
  refine ⟨by simp [mapGet, collisionMap, oldSession, List.find?], hid, ?_⟩
  simp [createSession, hid, mapSet, collisionMap, mapGet, List.find?]

/-- C7 amended: the id returned by `create-session` is the first 8
characters of the fresh UUID, uppercased, and the new session record is
stored in the map under that id unconditionally — no collision check is
made, so an id clash replaces the live session stored under it. -/
theorem createSession_stores_under_derived_id (u sock : String)
    (d : Option ℤ) (now : ℤ) (m : SessionMap) :
    (createSession u sock d now m).2 = (u.take 8).toUpper
    ∧ mapGet (createSession u sock d now m).1 ((createSession u sock d now m).2)
      = some
        { id := (u.take 8).toUpper
          adminId := sock
          adminName := ""
          referenceImage := none
          referenceFaceDescriptor := none
          participants := []
          maxParticipants := 10
          durationMinutes := d.getD 30
          createdAt := now } := by
  exact ⟨rfl, mapGet_mapSet_self m _ _⟩

/-- C8 counterexample: a requested duration of 1000 minutes is far out of
the 5–120 range, yet `create-session` neither fails nor clamps: the
session is stored with `durationMinutes = 1000` unchanged. -/
theorem createSession_stores_out_of_range_duration :
    (mapGet (createSession "abcd1234" "X" (some 1000) 0 []).1
        (createSession "abcd1234" "X" (some 1000) 0 []).2).map
      (fun s => s.durationMinutes) = some 1000
    ∧ ¬ ((5 : ℤ) ≤ 1000 ∧ (1000 : ℤ) ≤ 120) := by
  constructor
  · rw [(createSession_stores_under_derived_id "abcd1234" "X" (some 1000) 0 []).2]
    rfl
  · omega

/-- C8 amended: `create-session` performs no validation of the requested
duration: any supplied `durationMinutes` (in range or not) is stored
unchanged, and an absent duration defaults to 30 minutes. -/
theorem createSession_no_duration_validation (u sock : String) (now : ℤ)
    (m : SessionMap) (d : ℤ) :
    (mapGet (createSession u sock (some d) now m).1
        (createSession u sock (some d) now m).2).map
      (fun s => s.durationMinutes) = some d
    ∧ (mapGet (createSession u sock none now m).1
        (createSession u sock none now m).2).map
      (fun s => s.durationMinutes) = some (30 : ℤ) := by
  constructor
  · rw [(createSession_stores_under_derived_id u sock (some d) now m).2]
    rfl
  · rw [(createSession_stores_under_derived_id u sock none now m).2]
    rfl

/-- C9: for a session stored with a positive configured duration of `D`
minutes, the cleanup sweep leaves it in place when run at
`createdAt + D·60000/2` (half its lifetime), while any sweep run at a
time strictly past `createdAt + D·60000` deletes it — in particular the
sweep scheduled within one 60-second interval after expiry does, so the
session is absent by `createdAt + D + sweepInterval + ε` and never
survives a sweep past its duration. -/
theorem session_expiry (m : SessionMap) (sid : String) (s : Session)
    (hnd : (m.map Prod.fst).Nodup) (hget : mapGet m sid = some s)
    (hD : 0 < s.durationMinutes) :
    mapGet (sweep (s.createdAt + s.durationMinutes * 60000 / 2) m) sid = some s
    ∧ (∀ t : ℤ, s.createdAt + s.durationMinutes * 60000 < t →
        mapGet (sweep t m) sid = none)
    ∧ (∀ t : ℤ, s.createdAt + s.durationMinutes * 60000 < t →
        t ≤ s.createdAt + s.durationMinutes * 60000 + 60000 →
        mapGet (sweep t m) sid = none) := by
  have hdur : sessionDurationMs s = s.durationMinutes * 60000 := by
    unfold sessionDurationMs
    rw [if_neg (by omega)]
    ring
  have hhalf : s.durationMinutes * 60000 / 2 = s.durationMinutes * 30000 := by
    rw [Int.mul_ediv_assoc s.durationMinutes (by norm_num : (2 : ℤ) ∣ 60000)]
    norm_num
  refine ⟨?_, ?_, ?_⟩
  · apply mapGet_sweep_of_kept m sid s _ hget
    simp only [isExpired, hdur, decide_eq_false_iff_not, not_lt, hhalf]
    omega
  · intro t ht
    apply mapGet_sweep_of_expired m sid s t hnd hget
    simp only [isExpired, hdur, decide_eq_true_eq]
    omega
  · intro t ht _
    apply mapGet_sweep_of_expired m sid s t hnd hget
    simp only [isExpired, hdur, decide_eq_true_eq]
    omega

/-- A session of 30 minutes created at time 0, and the store holding it. -/
def expirySession : Session :=
  ⟨"EXP00001", "a", "", none, none, [], 10, 30, 0⟩

/-- The store holding only `expirySession`. -/
def expiryMap : SessionMap := [("EXP00001", expirySession)]

/-- Witness for `session_expiry`: the 30-minute session is still present
when the sweep runs at 900000 ms (half its lifetime) and gone when a
sweep runs at 1860001 ms (one sweep interval plus 1 ms past expiry). -/
theorem session_expiry_witness :
    mapGet (sweep 900000 expiryMap) "EXP00001" = some expirySession
    ∧ mapGet (sweep 1860001 expiryMap) "EXP00001" = none := by
  have h := session_expiry expiryMap "EXP00001" expirySession
    (by simp [expiryMap]) (by simp [mapGet, expiryMap, List.find?])
    (by norm_num [expirySession])
  refine ⟨?_, h.2.1 1860001 (by norm_num [expirySession])⟩
  have h1 := h.1
  norm_num [expirySession] at h1
  exact h1
